import Mathlib

/-!
Verification of the rock-paper-scissors round engine.

The game logic lives in a single React component (`App`): component state
(`gameState`, `score`, `playerGesture`, `botGesture`, `gameResult`,
`countdown`), a countdown-interval effect, a 500 ms capture-timeout effect, a
score-watch effect, and the handlers `playRound` / `resetGame`.  We embed the
session state as a structure and the event-driven loop as a step function over
explicit events.  React's run-to-completion model (each handler or timer
callback commits, then effects run before the next external event) justifies
folding the entry effects into the transition that triggers them:

  - the COUNTDOWN-entry effect (clear `botGesture`, clear `gameResult`) is
    folded into the `startRound` transition;
  - the score-watch effect (set GAME_OVER when a score reaches
    `WINNING_SCORE`) is folded into the transitions that change `score`.

Timer events carry guards taken from the source: the countdown interval
exists only while `gameState = COUNTDOWN` (the effect's cleanup clears it),
the capture timeout only while `gameState = PLAYING`, the `playRound` button
is rendered only in the IDLE and RESULT branches of the view, and the
`resetGame` button only in the GAME_OVER branch.

The vision service (`VisionService.detect`) is embedded separately with its
external inputs (recognizer initialized?, `video.currentTime`, the recognizer
call's outcome) made explicit.
-/

namespace RPS

/-- `Gesture` enum from `types.ts`. -/
inductive Gesture
  | NONE
  | ROCK
  | PAPER
  | SCISSORS
  deriving DecidableEq, Fintype

/-- `GameState` enum from `types.ts`. -/
inductive GameState
  | IDLE
  | COUNTDOWN
  | PLAYING
  | RESULT
  | GAME_OVER
  deriving DecidableEq

/-- `Score` interface from `types.ts`; the components are non-negative by
construction (the code only ever stores 0 or increments). -/
structure Score where
  player : Nat
  bot : Nat
  deriving DecidableEq

/-- The `winner` field of `GameResult`; in the code it is one of the string
literals `player`, `bot`, `draw`, `invalid` (the `null` member of the TS union
is never stored: `setGameResult` is always called with one of the four). -/
inductive Winner
  | player
  | bot
  | draw
  | invalid
  deriving DecidableEq

/-- `GameResult` interface from `types.ts`. -/
structure GameResult where
  winner : Winner
  message : String
  deriving DecidableEq

/-- The session state held by the `App` component (the six game-logic
`useState` hooks; the camera/model-loading flags are outside the core). -/
structure AppState where
  gameState : GameState
  score : Score
  playerGesture : Gesture
  botGesture : Gesture
  gameResult : Option GameResult
  countdown : Nat
  deriving DecidableEq

def WINNING_SCORE : Nat := 3

/-- `determineWinner` from `App`. -/
def determineWinner (p b : Gesture) : Winner :=
  if p = Gesture.NONE then Winner.invalid
  else if p = b then Winner.draw
  else if (p = Gesture.ROCK ∧ b = Gesture.SCISSORS)
      ∨ (p = Gesture.PAPER ∧ b = Gesture.ROCK)
      ∨ (p = Gesture.SCISSORS ∧ b = Gesture.PAPER) then Winner.player
  else Winner.bot

/-- The message assignment in the PLAYING effect (`msg` branches). -/
def resultMessage (w : Winner) : String :=
  match w with
  | Winner.invalid => "No Hand Detected"
  | Winner.player => "You Win!"
  | Winner.bot => "Bot Wins!"
  | Winner.draw => "Draw!"

/-- The `setScore` calls in the PLAYING effect: increment the winner's
component, leave the score alone on draw/invalid. -/
def applyScore (w : Winner) (sc : Score) : Score :=
  match w with
  | Winner.player => { sc with player := sc.player + 1 }
  | Winner.bot => { sc with bot := sc.bot + 1 }
  | _ => sc

/-- The `moves` array in the PLAYING effect. -/
def moves : List Gesture := [Gesture.ROCK, Gesture.PAPER, Gesture.SCISSORS]

/-- The score-watch effect: `setGameState(GAME_OVER)` when either component
has reached `WINNING_SCORE`. -/
def checkGameOver (s : AppState) : AppState :=
  if WINNING_SCORE ≤ s.score.player ∨ WINNING_SCORE ≤ s.score.bot then
    { s with gameState := GameState.GAME_OVER }
  else s

/-- `resetGame` from `App` (note: it does not touch `countdown`). -/
def resetGame (s : AppState) : AppState :=
  { s with score := ⟨0, 0⟩,
           gameState := GameState.IDLE,
           playerGesture := Gesture.NONE,
           botGesture := Gesture.NONE,
           gameResult := none }

/-- `playRound` from `App`. -/
def playRound (s : AppState) : AppState :=
  { s with gameResult := none,
           gameState := GameState.COUNTDOWN,
           countdown := 3 }

/-- The COUNTDOWN-entry effect body: `setBotGesture(NONE)`,
`setGameResult(null)`. -/
def countdownEntryEffect (s : AppState) : AppState :=
  { s with botGesture := Gesture.NONE, gameResult := none }

/-- One firing of the 1-second interval in the COUNTDOWN effect:
`prev <= 1` transitions to PLAYING and returns 3, otherwise `prev - 1`. -/
def countdownTick (s : AppState) : AppState :=
  if s.countdown ≤ 1 then { s with gameState := GameState.PLAYING, countdown := 3 }
  else { s with countdown := s.countdown - 1 }

/-- The 500 ms timeout body in the PLAYING effect: pick the bot move from
`moves` at the random index, move to RESULT, resolve the round against the
currently polled player gesture, update the score and the result.  The index
is `Math.floor(Math.random() * moves.length)`, always `< moves.length`, so it
is a `Fin moves.length`. -/
def captureMoment (r : Fin moves.length) (s : AppState) : AppState :=
  let botMove := moves.get r
  let winner := determineWinner s.playerGesture botMove
  { s with botGesture := botMove,
           gameState := GameState.RESULT,
           score := applyScore winner s.score,
           gameResult := some ⟨winner, resultMessage winner⟩ }

/-- External events driving the component: the two button intents, the two
timers, and the detection-loop write to `playerGesture`. -/
inductive Event
  | startRound
  | tick
  | capture (r : Fin moves.length)
  | poll (g : Gesture)
  | reset
  deriving DecidableEq

/-- One event-driven transition.  Guards come from the source: the
`playRound` button is rendered only in the IDLE and RESULT view branches, the
`resetGame` button only in the GAME_OVER branch, the countdown interval is
alive only during COUNTDOWN and the capture timeout only during PLAYING
(each effect's cleanup cancels its timer on exit).  The score-watch effect is
applied after every transition that writes `score`. -/
def step (e : Event) (s : AppState) : AppState :=
  match e with
  | Event.startRound =>
      if s.gameState = GameState.IDLE ∨ s.gameState = GameState.RESULT then
        countdownEntryEffect (playRound s)
      else s
  | Event.tick =>
      if s.gameState = GameState.COUNTDOWN then countdownTick s else s
  | Event.capture r =>
      if s.gameState = GameState.PLAYING then checkGameOver (captureMoment r s) else s
  | Event.poll g => { s with playerGesture := g }
  | Event.reset =>
      if s.gameState = GameState.GAME_OVER then checkGameOver (resetGame s) else s

/-- The initial component state (the `useState` initializers). -/
def initState : AppState :=
  { gameState := GameState.IDLE,
    score := ⟨0, 0⟩,
    playerGesture := Gesture.NONE,
    botGesture := Gesture.NONE,
    gameResult := none,
    countdown := 3 }

/-- Run a list of events from a state. -/
def run (evs : List Event) (s : AppState) : AppState :=
  evs.foldl (fun t e => step e t) s

/-- States reachable from the initial state by events. -/
inductive Reachable : AppState → Prop
  | init : Reachable initState
  | next : ∀ (e : Event) (s : AppState), Reachable s → Reachable (step e s)

/-- The inductive invariant of the session: `botGesture` is cleared in
IDLE/COUNTDOWN, `countdown` sits at 3 outside COUNTDOWN and within `[1,3]`
always, and a score at the threshold forces GAME_OVER. -/
def Inv (s : AppState) : Prop :=
  ((s.gameState = GameState.IDLE ∨ s.gameState = GameState.COUNTDOWN) →
      s.botGesture = Gesture.NONE)
  ∧ (s.gameState ≠ GameState.COUNTDOWN → s.countdown = 3)
  ∧ (1 ≤ s.countdown ∧ s.countdown ≤ 3)
  ∧ ((WINNING_SCORE ≤ s.score.player ∨ WINNING_SCORE ≤ s.score.bot) →
      s.gameState = GameState.GAME_OVER)

/-- Events of one bot-winning round: the player shows scissors, the bot draw
index 0 picks rock. -/
def botWinRound : List Event :=
  [Event.poll Gesture.SCISSORS, Event.startRound, Event.tick, Event.tick, Event.tick,
   Event.capture ⟨0, by decide⟩]

/-- Three bot-winning rounds in a row: reaches GAME_OVER at score 0 : 3. -/
def demoEvents : List Event := botWinRound ++ botWinRound ++ botWinRound

def demoState : AppState := run demoEvents initState

/-- A reachable PLAYING state with the player showing scissors. -/
def playingDemo : AppState :=
  run [Event.poll Gesture.SCISSORS, Event.startRound, Event.tick, Event.tick, Event.tick]
    initState

/-- A reachable COUNTDOWN state whose countdown has ticked down to 1. -/
def countdownDemo : AppState :=
  run [Event.startRound, Event.tick, Event.tick] initState

/-- Spec-worded winner-resolution rule (spec section 4.2), stated from the
spec's sentences for comparison with the code: priority order is the
`None` check, then draw, then the three player-winning pairs, else bot win,
each with its message. -/
def resolutionSpec (p b : Gesture) : Winner × String :=
  if p = Gesture.NONE then (Winner.invalid, "No Hand Detected")
  else if p = b then (Winner.draw, "Draw!")
  else if (p, b) = (Gesture.ROCK, Gesture.SCISSORS)
      ∨ (p, b) = (Gesture.PAPER, Gesture.ROCK)
      ∨ (p, b) = (Gesture.SCISSORS, Gesture.PAPER) then (Winner.player, "You Win!")
  else (Winner.bot, "Bot Wins!")

namespace VisionService

/-- A category entry as returned by the MediaPipe recognizer
(`categoryName`, confidence `score`). -/
structure GestureCategory where
  categoryName : String
  score : ℚ
  deriving DecidableEq

/-- The result of `recognizeForVideo`: per-hand candidate-category lists,
best candidate first. -/
structure RecognizerResult where
  gestures : List (List GestureCategory)
  deriving DecidableEq

/-- `VisionService.detect`, with its three external inputs explicit: whether
`initialize` has completed (`gestureRecognizer` non-null), the video
element's `currentTime`, and the outcome of the `recognizeForVideo` call
(`Except.error` stands for a thrown exception, swallowed by the
`try`/`catch`; the `gestures[0][0]` access on an empty inner list throws a
`TypeError` in the source, likewise swallowed, so the empty inner list also
lands on the catch-all `(NONE, 0)` return). -/
def detect (initialized : Bool) (currentTime : ℚ)
    (reco : Except Unit RecognizerResult) : Gesture × ℚ :=
  if initialized = false then (Gesture.NONE, 0)
  else if currentTime = 0 then (Gesture.NONE, 0)
  else
    match reco with
    | Except.error _ => (Gesture.NONE, 0)
    | Except.ok result =>
      match result.gestures with
      | [] => (Gesture.NONE, 0)
      | g0 :: _ =>
        match g0 with
        | [] => (Gesture.NONE, 0)
        | top :: _ =>
          if top.categoryName = "Closed_Fist" then (Gesture.ROCK, top.score)
          else if top.categoryName = "Open_Palm" then (Gesture.PAPER, top.score)
          else if top.categoryName = "Victory" then (Gesture.SCISSORS, top.score)
          else (Gesture.NONE, top.score)

end VisionService

theorem reachable_run (evs : List Event) (s : AppState) (h : Reachable s) :
    Reachable (run evs s) := by
  induction evs generalizing s with
  | nil => exact h
  | cons e tl ih => exact ih (step e s) (Reachable.next e s h)

theorem step_startRound_pos (s : AppState)
    (hg : s.gameState = GameState.IDLE ∨ s.gameState = GameState.RESULT) :
    step Event.startRound s = countdownEntryEffect (playRound s) := by
  simp only [step, if_pos hg]

theorem step_startRound_neg (s : AppState)
    (hg : ¬(s.gameState = GameState.IDLE ∨ s.gameState = GameState.RESULT)) :
    step Event.startRound s = s := by
  simp only [step, if_neg hg]

theorem step_tick_pos (s : AppState) (hg : s.gameState = GameState.COUNTDOWN) :
    step Event.tick s = countdownTick s := by
  simp only [step, if_pos hg]

theorem step_tick_neg (s : AppState) (hg : s.gameState ≠ GameState.COUNTDOWN) :
    step Event.tick s = s := by
  simp only [step, if_neg hg]

theorem step_capture_pos (r : Fin moves.length) (s : AppState)
    (hg : s.gameState = GameState.PLAYING) :
    step (Event.capture r) s = checkGameOver (captureMoment r s) := by
  simp only [step, if_pos hg]

theorem step_capture_neg (r : Fin moves.length) (s : AppState)
    (hg : s.gameState ≠ GameState.PLAYING) :
    step (Event.capture r) s = s := by
  simp only [step, if_neg hg]

theorem step_poll (g : Gesture) (s : AppState) :
    step (Event.poll g) s = { s with playerGesture := g } := rfl

theorem step_reset_pos (s : AppState) (hg : s.gameState = GameState.GAME_OVER) :
    step Event.reset s = checkGameOver (resetGame s) := by
  simp only [step, if_pos hg]


theorem inv_init : Inv initState := by
  constructor
  · intro _; rfl
  · refine ⟨fun _ => rfl, ⟨by decide, by decide⟩, ?_⟩
    intro h
    rcases h with h | h <;> simp [initState, WINNING_SCORE] at h

theorem inv_step (e : Event) (s : AppState) (h : Inv s) : Inv (step e s) := by
  obtain ⟨hbg, hcd3, hcdb, hth⟩ := h
  cases e with
  | startRound =>
    by_cases hg : s.gameState = GameState.IDLE ∨ s.gameState = GameState.RESULT
    · simp only [step, if_pos hg]
      refine ⟨fun _ => rfl, fun _ => rfl, ⟨?_, ?_⟩, fun ht => ?_⟩
      · show (1 : Nat) ≤ 3; decide
      · show (3 : Nat) ≤ 3; decide
      · exfalso
        have hgo := hth ht
        rcases hg with hg | hg <;> rw [hg] at hgo <;> exact GameState.noConfusion hgo
    · simp only [step, if_neg hg]
      exact ⟨hbg, hcd3, hcdb, hth⟩
  | tick =>
    by_cases hg : s.gameState = GameState.COUNTDOWN
    · simp only [step, if_pos hg, countdownTick]
      by_cases hle : s.countdown ≤ 1
      · rw [if_pos hle]
        refine ⟨fun hc => ?_, fun _ => rfl, ⟨?_, ?_⟩, fun ht => ?_⟩
        · rcases hc with hc | hc <;> exact GameState.noConfusion hc
        · show (1 : Nat) ≤ 3; decide
        · show (3 : Nat) ≤ 3; decide
        · exfalso
          have hgo := hth ht
          rw [hg] at hgo
          exact GameState.noConfusion hgo
      · rw [if_neg hle]
        refine ⟨fun _ => hbg (Or.inr hg), fun hne => absurd hg hne, ?_, fun ht => ?_⟩
        · show 1 ≤ s.countdown - 1 ∧ s.countdown - 1 ≤ 3
          omega
        · exfalso
          have hgo := hth ht
          rw [hg] at hgo
          exact GameState.noConfusion hgo
    · simp only [step, if_neg hg]
      exact ⟨hbg, hcd3, hcdb, hth⟩
  | capture r =>
    by_cases hg : s.gameState = GameState.PLAYING
    · have hcd : s.countdown = 3 := hcd3 (by rw [hg]; exact fun hx => GameState.noConfusion hx)
      simp only [step, if_pos hg, checkGameOver]
      by_cases hover : WINNING_SCORE ≤ (captureMoment r s).score.player
          ∨ WINNING_SCORE ≤ (captureMoment r s).score.bot
      · rw [if_pos hover]
        refine ⟨fun hc => ?_, fun _ => hcd, hcdb, fun _ => rfl⟩
        rcases hc with hc | hc <;> exact GameState.noConfusion hc
      · rw [if_neg hover]
        refine ⟨fun hc => ?_, fun _ => hcd, hcdb, fun ht => absurd ht hover⟩
        rcases hc with hc | hc <;> exact GameState.noConfusion hc
    · simp only [step, if_neg hg]
      exact ⟨hbg, hcd3, hcdb, hth⟩
  | poll g =>
    simp only [step]
    exact ⟨fun hc => hbg hc, fun hne => hcd3 hne, hcdb, fun ht => hth ht⟩
  | reset =>
    by_cases hg : s.gameState = GameState.GAME_OVER
    · have hcd : s.countdown = 3 := hcd3 (by rw [hg]; exact fun hx => GameState.noConfusion hx)
      have hover : ¬(WINNING_SCORE ≤ (resetGame s).score.player
          ∨ WINNING_SCORE ≤ (resetGame s).score.bot) := by
        show ¬((3 : Nat) ≤ 0 ∨ (3 : Nat) ≤ 0)
        decide
      simp only [step, if_pos hg, checkGameOver]
      rw [if_neg hover]
      exact ⟨fun _ => rfl, fun _ => hcd, hcdb, fun ht => absurd ht hover⟩
    · simp only [step, if_neg hg]
      exact ⟨hbg, hcd3, hcdb, hth⟩

theorem reachable_inv (s : AppState) (h : Reachable s) : Inv s := by
  induction h with
  | init => exact inv_init
  | next e s _ ih => exact inv_step e s ih


theorem demo_reachable : Reachable demoState :=
  reachable_run demoEvents initState Reachable.init


theorem playingDemo_reachable : Reachable playingDemo :=
  reachable_run _ initState Reachable.init


theorem countdownDemo_reachable : Reachable countdownDemo :=
  reachable_run _ initState Reachable.init


/-- C1: over all 16 gesture pairs, `determineWinner` together with the
PLAYING effect's message assignment agrees with the spec's resolution rule,
and the outcome is `invalid` iff the player's gesture is `NONE`. -/
theorem C1_winner_resolution :
    ∀ p b : Gesture,
      (determineWinner p b, resultMessage (determineWinner p b)) = resolutionSpec p b
      ∧ (determineWinner p b = Winner.invalid ↔ p = Gesture.NONE) := by decide

/-- C4 counterexample: in the concrete first round the countdown reads
3, 2, 1 during the Countdown phase and the phase changes to Playing on the
tick arriving at 1 (resetting the countdown to 3) — the countdown is never 0
at any point of the Countdown phase, refuting "decreases to 0 before the
phase changes". -/
theorem C4_counterexample :
    (step Event.startRound initState).gameState = GameState.COUNTDOWN
    ∧ (step Event.startRound initState).countdown = 3
    ∧ (run [Event.startRound, Event.tick] initState).gameState = GameState.COUNTDOWN
    ∧ (run [Event.startRound, Event.tick] initState).countdown = 2
    ∧ (run [Event.startRound, Event.tick, Event.tick] initState).gameState
        = GameState.COUNTDOWN
    ∧ (run [Event.startRound, Event.tick, Event.tick] initState).countdown = 1
    ∧ (run [Event.startRound, Event.tick, Event.tick, Event.tick] initState).gameState
        = GameState.PLAYING
    ∧ (run [Event.startRound, Event.tick, Event.tick, Event.tick] initState).countdown = 3
    ∧ (step Event.startRound initState).countdown ≠ 0
    ∧ (run [Event.startRound, Event.tick] initState).countdown ≠ 0
    ∧ (run [Event.startRound, Event.tick, Event.tick] initState).countdown ≠ 0 := by
  decide

/-- C4 (amended): the countdown always starts at 3 on entering Countdown, is
3 outside the Countdown phase, stays within [1, 3] in every reachable state —
so it never reaches 0 — and the tick arriving with countdown = 1 moves the
phase out of Countdown to Playing, resetting the countdown to 3. -/
theorem C4_countdown_invariant (s : AppState) (hs : Reachable s) :
    (1 ≤ s.countdown ∧ s.countdown ≤ 3)
    ∧ (s.gameState ≠ GameState.COUNTDOWN → s.countdown = 3)
    ∧ ((s.gameState = GameState.IDLE ∨ s.gameState = GameState.RESULT) →
        (step Event.startRound s).countdown = 3
        ∧ (step Event.startRound s).gameState = GameState.COUNTDOWN)
    ∧ (s.gameState = GameState.COUNTDOWN → s.countdown = 1 →
        (step Event.tick s).gameState = GameState.PLAYING
        ∧ (step Event.tick s).countdown = 3) := by
  obtain ⟨hbg, hcd3, hcdb, hth⟩ := reachable_inv s hs
  refine ⟨hcdb, hcd3, fun hg => ?_, fun hg h1 => ?_⟩
  · rw [step_startRound_pos s hg]
    exact ⟨rfl, rfl⟩
  · have hle : s.countdown ≤ 1 := le_of_eq h1
    rw [step_tick_pos s hg]
    unfold countdownTick
    rw [if_pos hle]
    exact ⟨rfl, rfl⟩

theorem C4_countdown_invariant_witness :
    (1 ≤ initState.countdown ∧ initState.countdown ≤ 3)
    ∧ ((step Event.tick countdownDemo).gameState = GameState.PLAYING
        ∧ (step Event.tick countdownDemo).countdown = 3) :=
  ⟨(C4_countdown_invariant initState Reachable.init).1,
   (C4_countdown_invariant countdownDemo countdownDemo_reachable).2.2.2
     (by decide) (by decide)⟩

/-- C6: the start-round intent is a no-op unless the phase is Idle or Result
(the only view branches that render the `playRound` button; GameOver-after-
reset is Idle), so it cannot take effect during Countdown or Playing and no
overlapping round can be started; and from Idle/Result it does start the
countdown. -/
theorem C6_startRound_guard (s : AppState) :
    (s.gameState ≠ GameState.IDLE → s.gameState ≠ GameState.RESULT →
      step Event.startRound s = s)
    ∧ ((s.gameState = GameState.IDLE ∨ s.gameState = GameState.RESULT) →
      (step Event.startRound s).gameState = GameState.COUNTDOWN) := by
  constructor
  · intro h1 h2
    have hg : ¬(s.gameState = GameState.IDLE ∨ s.gameState = GameState.RESULT) := by
      intro hor
      rcases hor with h | h
      · exact h1 h
      · exact h2 h
    simp only [step, if_neg hg]
  · intro hg
    simp only [step, if_pos hg]
    rfl

theorem checkGameOver_score (s : AppState) : (checkGameOver s).score = s.score := by
  unfold checkGameOver; split <;> rfl

theorem checkGameOver_botGesture (s : AppState) :
    (checkGameOver s).botGesture = s.botGesture := by
  unfold checkGameOver; split <;> rfl

theorem checkGameOver_playerGesture (s : AppState) :
    (checkGameOver s).playerGesture = s.playerGesture := by
  unfold checkGameOver; split <;> rfl

theorem checkGameOver_gameResult (s : AppState) :
    (checkGameOver s).gameResult = s.gameResult := by
  unfold checkGameOver; split <;> rfl

theorem captureMoment_score (r : Fin moves.length) (s : AppState) :
    (captureMoment r s).score
      = applyScore (determineWinner s.playerGesture (moves.get r)) s.score := rfl

/-- `applyScore` changes the score iff the outcome is decisive. -/
theorem applyScore_ne_iff (w : Winner) (sc : Score) :
    applyScore w sc ≠ sc ↔ (w = Winner.player ∨ w = Winner.bot) := by
  cases w with
  | player =>
    constructor
    · intro _; exact Or.inl rfl
    · intro _ h
      have hp : sc.player + 1 = sc.player := congrArg Score.player h
      omega
  | bot =>
    constructor
    · intro _; exact Or.inr rfl
    · intro _ h
      have hb : sc.bot + 1 = sc.bot := congrArg Score.bot h
      omega
  | draw =>
    constructor
    · intro h; exact absurd rfl h
    · intro hor
      rcases hor with h | h <;> exact Winner.noConfusion h
  | invalid =>
    constructor
    · intro h; exact absurd rfl h
    · intro hor
      rcases hor with h | h <;> exact Winner.noConfusion h

/-- In a GAME_OVER state every event other than the reset intent keeps the
phase GAME_OVER and the score unchanged. -/
theorem gameover_step (s : AppState) (e : Event)
    (hgo : s.gameState = GameState.GAME_OVER) (hne : e ≠ Event.reset) :
    (step e s).gameState = GameState.GAME_OVER ∧ (step e s).score = s.score := by
  cases e with
  | startRound =>
    rw [step_startRound_neg s (by rw [hgo]; decide)]
    exact ⟨hgo, rfl⟩
  | tick =>
    rw [step_tick_neg s (by rw [hgo]; decide)]
    exact ⟨hgo, rfl⟩
  | capture r =>
    rw [step_capture_neg r s (by rw [hgo]; decide)]
    exact ⟨hgo, rfl⟩
  | poll g => exact ⟨hgo, rfl⟩
  | reset => exact absurd rfl hne

theorem gameover_run (evs : List Event) :
    ∀ s : AppState, s.gameState = GameState.GAME_OVER → Event.reset ∉ evs →
      (run evs s).gameState = GameState.GAME_OVER ∧ (run evs s).score = s.score := by
  induction evs with
  | nil => exact fun s hgo _ => ⟨hgo, rfl⟩
  | cons e tl ih =>
    intro s hgo hne
    have hne1 : e ≠ Event.reset := fun hx => hne (by rw [hx]; exact List.mem_cons_self _ _)
    have hne2 : Event.reset ∉ tl := fun hx => hne (List.mem_cons_of_mem _ hx)
    obtain ⟨h1, h2⟩ := gameover_step s e hgo hne1
    obtain ⟨h3, h4⟩ := ih (step e s) h1 hne2
    exact ⟨h3, by rw [show run (e :: tl) s = run tl (step e s) from rfl, h4, h2]⟩

/-- C2: in any reachable state whose score has reached `WINNING_SCORE`, the
phase is GAME_OVER; any sequence of events not containing the reset intent
keeps the phase GAME_OVER and the score unchanged; and the start-round intent
is an exact no-op there. -/
theorem C2_gameover_absorbing (s : AppState) (hs : Reachable s)
    (h3 : WINNING_SCORE ≤ s.score.player ∨ WINNING_SCORE ≤ s.score.bot) :
    s.gameState = GameState.GAME_OVER
    ∧ (∀ evs : List Event, Event.reset ∉ evs →
        (run evs s).gameState = GameState.GAME_OVER ∧ (run evs s).score = s.score)
    ∧ step Event.startRound s = s := by
  have hgo : s.gameState = GameState.GAME_OVER := (reachable_inv s hs).2.2.2 h3
  refine ⟨hgo, fun evs hne => gameover_run evs s hgo hne, ?_⟩
  exact step_startRound_neg s (by rw [hgo]; decide)

theorem C2_gameover_absorbing_witness :
    demoState.gameState = GameState.GAME_OVER
    ∧ (run [Event.startRound, Event.tick] demoState).score = demoState.score
    ∧ step Event.startRound demoState = demoState := by
  obtain ⟨h1, h2, h3⟩ := C2_gameover_absorbing demoState demo_reachable (by decide)
  exact ⟨h1, (h2 [Event.startRound, Event.tick] (by decide)).2, h3⟩

/-- C3: the score is written only by the capture transition — start-round,
tick and poll leave it unchanged; the capture transition increments exactly
the winner's component by one on a decisive outcome and leaves the pair
unchanged on a draw or invalid outcome; and no event other than the explicit
reset intent ever decreases a component (the components are `Nat`s, hence
non-negative). -/
theorem C3_score_frame (s : AppState) :
    (step Event.startRound s).score = s.score
    ∧ (step Event.tick s).score = s.score
    ∧ (∀ g, (step (Event.poll g) s).score = s.score)
    ∧ (∀ r : Fin moves.length, s.gameState = GameState.PLAYING →
        ((determineWinner s.playerGesture (moves.get r) = Winner.player →
          (step (Event.capture r) s).score = ⟨s.score.player + 1, s.score.bot⟩)
        ∧ (determineWinner s.playerGesture (moves.get r) = Winner.bot →
          (step (Event.capture r) s).score = ⟨s.score.player, s.score.bot + 1⟩)
        ∧ (determineWinner s.playerGesture (moves.get r) = Winner.draw
            ∨ determineWinner s.playerGesture (moves.get r) = Winner.invalid →
          (step (Event.capture r) s).score = s.score)))
    ∧ (∀ e, e ≠ Event.reset →
        s.score.player ≤ (step e s).score.player
        ∧ s.score.bot ≤ (step e s).score.bot) := by
  have hsr : (step Event.startRound s).score = s.score := by
    by_cases hg : s.gameState = GameState.IDLE ∨ s.gameState = GameState.RESULT
    · rw [step_startRound_pos s hg]; rfl
    · rw [step_startRound_neg s hg]
  have htk : (step Event.tick s).score = s.score := by
    by_cases hg : s.gameState = GameState.COUNTDOWN
    · rw [step_tick_pos s hg]; unfold countdownTick; split <;> rfl
    · rw [step_tick_neg s hg]
  refine ⟨hsr, htk, fun g => rfl, fun r hg => ?_, fun e hne => ?_⟩
  · rw [step_capture_pos r s hg, checkGameOver_score, captureMoment_score]
    refine ⟨fun hw => ?_, fun hw => ?_, fun hw => ?_⟩
    · rw [hw]; rfl
    · rw [hw]; rfl
    · rcases hw with hw | hw <;> rw [hw] <;> rfl
  · cases e with
    | startRound => rw [hsr]; exact ⟨Nat.le_refl _, Nat.le_refl _⟩
    | tick => rw [htk]; exact ⟨Nat.le_refl _, Nat.le_refl _⟩
    | poll g => exact ⟨Nat.le_refl _, Nat.le_refl _⟩
    | reset => exact absurd rfl hne
    | capture r =>
      by_cases hg : s.gameState = GameState.PLAYING
      · rw [step_capture_pos r s hg, checkGameOver_score, captureMoment_score]
        cases determineWinner s.playerGesture (moves.get r) with
        | player => exact ⟨Nat.le_succ _, Nat.le_refl _⟩
        | bot => exact ⟨Nat.le_refl _, Nat.le_succ _⟩
        | draw => exact ⟨Nat.le_refl _, Nat.le_refl _⟩
        | invalid => exact ⟨Nat.le_refl _, Nat.le_refl _⟩
      · rw [step_capture_neg r s hg]
        exact ⟨Nat.le_refl _, Nat.le_refl _⟩

theorem C3_score_frame_witness :
    (step (Event.capture ⟨0, by decide⟩) playingDemo).score = ⟨0, 1⟩ := by
  have h := (C3_score_frame playingDemo).2.2.2.1 ⟨0, by decide⟩ (by decide)
  exact (h.2.1 (by decide)).trans (by decide)

/-- C7 counterexample: a concrete reachable GAME_OVER state whose
`botGesture` is ROCK — the score-watch effect moves the phase to GAME_OVER
without clearing the bot's move, refuting "botGesture is None in GameOver". -/
theorem C7_counterexample :
    Reachable demoState
    ∧ demoState.gameState = GameState.GAME_OVER
    ∧ demoState.botGesture ≠ Gesture.NONE :=
  ⟨demo_reachable, by decide, by decide⟩

/-- C7 (amended): in every reachable state, `botGesture` is `NONE` outside
the Playing, Result and GameOver phases, i.e. in the Idle and Countdown
phases. -/
theorem C7_botGesture_cleared (s : AppState) (hs : Reachable s)
    (h : s.gameState = GameState.IDLE ∨ s.gameState = GameState.COUNTDOWN) :
    s.botGesture = Gesture.NONE :=
  (reachable_inv s hs).1 h

theorem C7_botGesture_cleared_witness : initState.botGesture = Gesture.NONE :=
  C7_botGesture_cleared initState Reachable.init (Or.inl rfl)

/-- C8: from any reachable GameOver state the reset intent restores exactly
the initial session state: score 0 : 0, phase Idle, no outcome, both gestures
None (the countdown field is untouched by `resetGame`, but it already equals
its initial value 3 in every reachable state outside the Countdown phase). -/
theorem C8_reset_restores_init (s : AppState) (hs : Reachable s)
    (hgo : s.gameState = GameState.GAME_OVER) :
    step Event.reset s = initState := by
  have hcd : s.countdown = 3 := (reachable_inv s hs).2.1 (by rw [hgo]; decide)
  rw [step_reset_pos s hgo]
  have hover : ¬(WINNING_SCORE ≤ (resetGame s).score.player
      ∨ WINNING_SCORE ≤ (resetGame s).score.bot) := by
    show ¬((3 : Nat) ≤ 0 ∨ (3 : Nat) ≤ 0)
    decide
  unfold checkGameOver
  rw [if_neg hover]
  unfold resetGame initState
  rw [hcd]

theorem C8_reset_restores_init_witness : step Event.reset demoState = initState :=
  C8_reset_restores_init demoState demo_reachable (by decide)

/-- C9: at the Playing → Result capture, the bot move is drawn from `moves`,
which never yields `NONE` and attains rock, paper and scissors each for some
draw value; the captured player gesture is the state's last polled value
(polling writes it, capture leaves it unchanged); the stored outcome is the
resolution of this pair with its message; and the score changes iff the
outcome is decisive. -/
theorem C9_capture_resolution (s : AppState) (hg : s.gameState = GameState.PLAYING) :
    (∀ r : Fin moves.length, moves.get r ≠ Gesture.NONE)
    ∧ (∀ g : Gesture, g ≠ Gesture.NONE → ∃ r : Fin moves.length, moves.get r = g)
    ∧ (∀ gp : Gesture, (step (Event.poll gp) s).playerGesture = gp)
    ∧ (∀ r : Fin moves.length,
        (step (Event.capture r) s).botGesture = moves.get r
        ∧ (step (Event.capture r) s).playerGesture = s.playerGesture
        ∧ (step (Event.capture r) s).gameResult
            = some ⟨determineWinner s.playerGesture (moves.get r),
                    resultMessage (determineWinner s.playerGesture (moves.get r))⟩
        ∧ (step (Event.capture r) s).score
            = applyScore (determineWinner s.playerGesture (moves.get r)) s.score
        ∧ ((step (Event.capture r) s).score ≠ s.score ↔
            (determineWinner s.playerGesture (moves.get r) = Winner.player
             ∨ determineWinner s.playerGesture (moves.get r) = Winner.bot))) := by
  refine ⟨by decide, fun g hgne => ?_, fun gp => rfl, fun r => ?_⟩
  · cases g with
    | NONE => exact absurd rfl hgne
    | ROCK => exact ⟨⟨0, by decide⟩, rfl⟩
    | PAPER => exact ⟨⟨1, by decide⟩, rfl⟩
    | SCISSORS => exact ⟨⟨2, by decide⟩, rfl⟩
  · rw [step_capture_pos r s hg]
    refine ⟨?_, ?_, ?_, ?_, ?_⟩
    · rw [checkGameOver_botGesture]; rfl
    · rw [checkGameOver_playerGesture]; rfl
    · rw [checkGameOver_gameResult]; rfl
    · rw [checkGameOver_score, captureMoment_score]
    · rw [checkGameOver_score, captureMoment_score]
      exact applyScore_ne_iff _ _

theorem C9_capture_resolution_witness :
    (step (Event.capture ⟨0, by decide⟩) playingDemo).botGesture
      = moves.get ⟨0, by decide⟩
    ∧ (step (Event.capture ⟨0, by decide⟩) playingDemo).playerGesture
      = playingDemo.playerGesture := by
  have h := (C9_capture_resolution playingDemo (by decide)).2.2.2 ⟨0, by decide⟩
  exact ⟨h.1, h.2.1⟩

/-- After the score-watch effect runs on a state produced in the RESULT
phase, the phase is still RESULT exactly when the score is below the
threshold. -/
theorem checkGameOver_result_iff (s : AppState) (hres : s.gameState = GameState.RESULT) :
    ((checkGameOver s).gameState = GameState.RESULT
      ↔ ¬(WINNING_SCORE ≤ (checkGameOver s).score.player
          ∨ WINNING_SCORE ≤ (checkGameOver s).score.bot)) := by
  by_cases hcond : WINNING_SCORE ≤ s.score.player ∨ WINNING_SCORE ≤ s.score.bot
  · unfold checkGameOver
    rw [if_pos hcond]
    constructor
    · intro hx
      exact GameState.noConfusion hx
    · intro hn
      exact absurd hcond hn
  · unfold checkGameOver
    rw [if_neg hcond]
    exact ⟨fun _ => hcond, fun _ => hres⟩

/-- C5: a countdown tick with countdown > 1 decrements it and stays in
Countdown; the tick arriving with countdown = 1 transitions to Playing and
resets the countdown to 3; and from any Idle state the round runs
Idle → Countdown(3, 2, 1) → Playing with exactly three ticks — the capture
timer is a no-op during Countdown, a further tick is a no-op in Playing, and
the single capture firing then lands in Result (Game Over exactly when the
updated score has reached the threshold). -/
theorem C5_round_sequence :
    (∀ t : AppState, t.gameState = GameState.COUNTDOWN → 1 < t.countdown →
      (step Event.tick t).gameState = GameState.COUNTDOWN
      ∧ (step Event.tick t).countdown = t.countdown - 1)
    ∧ (∀ t : AppState, t.gameState = GameState.COUNTDOWN → t.countdown = 1 →
      (step Event.tick t).gameState = GameState.PLAYING
      ∧ (step Event.tick t).countdown = 3)
    ∧ (∀ s : AppState, s.gameState = GameState.IDLE →
        (step Event.startRound s).gameState = GameState.COUNTDOWN
        ∧ (step Event.startRound s).countdown = 3
        ∧ (run [Event.startRound, Event.tick] s).gameState = GameState.COUNTDOWN
        ∧ (run [Event.startRound, Event.tick] s).countdown = 2
        ∧ (run [Event.startRound, Event.tick, Event.tick] s).gameState
            = GameState.COUNTDOWN
        ∧ (run [Event.startRound, Event.tick, Event.tick] s).countdown = 1
        ∧ (run [Event.startRound, Event.tick, Event.tick, Event.tick] s).gameState
            = GameState.PLAYING
        ∧ (∀ r, step (Event.capture r) (run [Event.startRound, Event.tick] s)
            = run [Event.startRound, Event.tick] s)
        ∧ step Event.tick (run [Event.startRound, Event.tick, Event.tick, Event.tick] s)
            = run [Event.startRound, Event.tick, Event.tick, Event.tick] s
        ∧ (∀ r,
            ((run [Event.startRound, Event.tick, Event.tick, Event.tick,
                Event.capture r] s).gameState = GameState.RESULT
              ↔ ¬(WINNING_SCORE ≤ (run [Event.startRound, Event.tick, Event.tick,
                    Event.tick, Event.capture r] s).score.player
                  ∨ WINNING_SCORE ≤ (run [Event.startRound, Event.tick, Event.tick,
                    Event.tick, Event.capture r] s).score.bot)))) := by
  refine ⟨fun t hg hgt => ?_, fun t hg h1 => ?_, fun s h => ?_⟩
  · rw [step_tick_pos t hg]
    unfold countdownTick
    rw [if_neg (by omega)]
    exact ⟨hg, rfl⟩
  · rw [step_tick_pos t hg]
    unfold countdownTick
    rw [if_pos (le_of_eq h1)]
    exact ⟨rfl, rfl⟩
  · obtain ⟨g, sc, pg, bg, gr, cd⟩ := s
    have hg : g = GameState.IDLE := h
    subst hg
    refine ⟨rfl, rfl, rfl, rfl, rfl, rfl, rfl, fun r => rfl, rfl, fun r => ?_⟩
    exact checkGameOver_result_iff
      (captureMoment r (AppState.mk GameState.PLAYING sc pg Gesture.NONE none 3)) rfl

theorem C5_round_sequence_witness :
    (run [Event.startRound, Event.tick, Event.tick, Event.tick] initState).gameState
      = GameState.PLAYING
    ∧ (run [Event.startRound, Event.tick, Event.tick, Event.tick,
        Event.capture ⟨0, by decide⟩] initState).gameState = GameState.RESULT := by
  have h := C5_round_sequence.2.2 initState rfl
  refine ⟨h.2.2.2.2.2.2.1, ?_⟩
  exact (h.2.2.2.2.2.2.2.2.2 ⟨0, by decide⟩).mpr (by decide)

/-- C10: `VisionService.detect` is total at its interface: every input
yields a gesture-confidence pair; it yields `(NONE, 0)` when the recognizer
is not initialized, the video has not started (`currentTime = 0`), the
recognition call throws, or no gesture is recognized; otherwise the top
category maps Closed_Fist ↦ ROCK, Open_Palm ↦ PAPER, Victory ↦ SCISSORS,
and any other name to NONE, each carrying that category's score. -/
theorem C10_detect_total (ct : ℚ) (reco : Except Unit VisionService.RecognizerResult)
    (top : VisionService.GestureCategory) (rest : List VisionService.GestureCategory)
    (tl : List (List VisionService.GestureCategory)) (hct : ct ≠ 0) :
    VisionService.detect false ct reco = (Gesture.NONE, 0)
    ∧ VisionService.detect true 0 reco = (Gesture.NONE, 0)
    ∧ VisionService.detect true ct (Except.error ()) = (Gesture.NONE, 0)
    ∧ VisionService.detect true ct (Except.ok ⟨[]⟩) = (Gesture.NONE, 0)
    ∧ VisionService.detect true ct (Except.ok ⟨[] :: tl⟩) = (Gesture.NONE, 0)
    ∧ (top.categoryName = "Closed_Fist" →
        VisionService.detect true ct (Except.ok ⟨(top :: rest) :: tl⟩)
          = (Gesture.ROCK, top.score))
    ∧ (top.categoryName = "Open_Palm" →
        VisionService.detect true ct (Except.ok ⟨(top :: rest) :: tl⟩)
          = (Gesture.PAPER, top.score))
    ∧ (top.categoryName = "Victory" →
        VisionService.detect true ct (Except.ok ⟨(top :: rest) :: tl⟩)
          = (Gesture.SCISSORS, top.score))
    ∧ (top.categoryName ≠ "Closed_Fist" → top.categoryName ≠ "Open_Palm" →
        top.categoryName ≠ "Victory" →
        VisionService.detect true ct (Except.ok ⟨(top :: rest) :: tl⟩)
          = (Gesture.NONE, top.score)) := by
  refine ⟨rfl, by simp [VisionService.detect], by simp [VisionService.detect, hct],
    by simp [VisionService.detect, hct], by simp [VisionService.detect, hct],
    fun h1 => by simp [VisionService.detect, hct, h1],
    fun h1 => by simp [VisionService.detect, hct, h1],
    fun h1 => by simp [VisionService.detect, hct, h1],
    fun h1 h2 h3 => by simp [VisionService.detect, hct, h1, h2, h3]⟩

theorem C10_detect_total_witness :
    VisionService.detect true 1
        (Except.ok ⟨[[VisionService.GestureCategory.mk "Closed_Fist" 1]]⟩)
      = (Gesture.ROCK, 1)
    ∧ VisionService.detect false 1 (Except.error ()) = (Gesture.NONE, 0) := by
  have h := C10_detect_total 1 (Except.error ())
    (VisionService.GestureCategory.mk "Closed_Fist" 1) [] [] (by norm_num)
  exact ⟨h.2.2.2.2.2.1 rfl, h.1⟩

theorem C6_startRound_guard_witness :
    step Event.startRound (run [Event.startRound] initState)
      = run [Event.startRound] initState
    ∧ (step Event.startRound initState).gameState = GameState.COUNTDOWN :=
  ⟨(C6_startRound_guard (run [Event.startRound] initState)).1 (by decide) (by decide),
   (C6_startRound_guard initState).2 (Or.inl (by decide))⟩

end RPS
